import Mathlib

/-!
Verification of the `ApiImpl` base contract of `hyundai_kia_connect_api`
(`src/hyundai_kia_connect_api/ApiImpl.py`), as a shallow embedding.

Python objects are modelled as Lean structures; in-place mutation is
modelled by returning the (possibly updated) caller-owned objects next to
the operation's result; a Python exception is an `Except.error`.  The
synchronous HTTP layer (`requests.get` plus `Response.json()`) is modelled
by a caller-supplied function from the request URL to an `HttpOutcome`.
-/

/-- A JSON value, as produced by `Response.json()`. -/
inductive Json where
  | obj (pairs : List (String × Json))
  | str (text : String)
  | arr (items : List Json)
  | num (z : Int)
  | bool (flag : Bool)
  | null

/-- Modelled from the spec: `Token.py` is not under `src/`.  The spec calls
it an opaque credential/session object created by `login` and passed to every
operation; `ApiImpl.update_geocoded_location` reads its `username` field. -/
structure Token where
  username : String
  password : String
  access_token : String

/-- Modelled from the spec: `Vehicle.py` is not under `src/`.  The spec calls
it a mutable record of identity and last-known telemetry; the fields below are
the ones the base contract reads or writes.  Coordinates are modelled as
optional integers (`none` is Python `None`); Python's float truthiness makes
`0`/`0.0` falsy exactly like the modelled `some 0`.  `geocode` holds the pair
built from the geocoding response; `month_trip_info`/`day_trip_info` hold the
trip data that concrete backends may populate. -/
structure Vehicle where
  id : String
  name : String
  location_latitude : Option Int
  location_longitude : Option Int
  geocode : Option (Option Json × Option Json)
  month_trip_info : Option Json
  day_trip_info : Option Json

/-- A Python exception escaping an operation of the base contract. -/
inductive PyError where
  | notImplemented (msg : String)
  | requestException (msg : String)

/-- Modelled from the spec: `const.py` is not under `src/`.  Result of polling
a previously issued command's tracking ID. -/
inductive OrderStatus where
  | PENDING
  | SUCCESS
  | FAILED

/-- Modelled from the spec: `const.py` is not under `src/`.  Lock/unlock
command selector. -/
inductive VEHICLE_LOCK_ACTION where
  | LOCK
  | UNLOCK

/-- Modelled from the spec: `const.py` is not under `src/`.  Window state
selector. -/
inductive WINDOW_STATE where
  | OPEN
  | CLOSED

/-- Modelled from the spec: `const.py` is not under `src/`.  Charge-port
command selector. -/
inductive CHARGE_PORT_ACTION where
  | OPEN
  | CLOSE

/-- Modelled from the spec: `const.py` is not under `src/`.  Valet-mode
command selector. -/
inductive VALET_MODE_ACTION where
  | ACTIVATE
  | DEACTIVATE

/-- A Python `datetime.time` value, modelled minimally (stdlib type). -/
structure PyTime where
  hour : Nat
  minute : Nat

/-- Parameter bag for `start_climate` (`ApiImpl.py`, `ClimateRequestOptions`).
Python float fields are modelled as rationals. -/
structure ClimateRequestOptions where
  set_temp : Option Rat
  duration : Option Int
  defrost : Option Bool
  climate : Option Bool
  heating : Option Int
  front_left_seat : Option Int
  front_right_seat : Option Int
  rear_left_seat : Option Int
  rear_right_seat : Option Int

/-- Parameter bag for `set_windows_state` (`ApiImpl.py`,
`WindowRequestOptions`). -/
structure WindowRequestOptions where
  back_left : Option WINDOW_STATE
  back_right : Option WINDOW_STATE
  front_left : Option WINDOW_STATE
  front_right : Option WINDOW_STATE

/-- Nested departure options of `ScheduleChargingClimateRequestOptions`
(`ApiImpl.py`).  `days` uses weekday indices Sun=0 .. Sat=6. -/
structure DepartureOptions where
  enabled : Option Bool
  days : Option (List Int)
  time : Option PyTime

/-- Parameter bag for `schedule_charging_and_climate` (`ApiImpl.py`,
`ScheduleChargingClimateRequestOptions`). -/
structure ScheduleChargingClimateRequestOptions where
  first_departure : Option DepartureOptions
  second_departure : Option DepartureOptions
  charging_enabled : Option Bool
  off_peak_start_time : Option PyTime
  off_peak_end_time : Option PyTime
  off_peak_charge_only_enabled : Option Bool
  climate_enabled : Option Bool
  temperature : Option Rat
  temperature_unit : Option Int
  defrost : Option Bool

/-- Outcome of the blocking HTTP layer for one GET request:
`raise` models `requests.get` raising a network error before a response
exists; `success none` models a response whose body `Response.json()` cannot
decode (it raises `JSONDecodeError`); `success (some j)` models a response
decoding to `j`. -/
inductive HttpOutcome where
  | raise (msg : String)
  | success (body : Option Json)

/-- Modelled from the spec: `utils.get_child_value` is not under `src/`.  The
spec describes it as tolerant field lookup: a missing field (or a non-object
value) yields an absent result, never an error. -/
def get_child_value (j : Json) (key : String) : Option Json :=
  match j with
  | Json.obj fields => (fields.find? (fun p => p.1 == key)).map (fun p => p.2)
  | _ => none

/-- The reverse-geocoding request URL built by
`ApiImpl.update_geocoded_location` (`ApiImpl.py` lines 114-125), for a
vehicle whose coordinates are `lat`/`lon`; `Int.repr` plays the role of
Python `str` on the coordinate. -/
def geocode_url (token : Token) (lat lon : Int) (use_email : Bool) : String :=
  "https://nominatim.openstreetmap.org/reverse?lat=" ++ Int.repr lat
    ++ "&lon=" ++ Int.repr lon
    ++ "&format=json&addressdetails=1&zoom=18"
    ++ (if use_email = true then "&email=" ++ token.username else "")

namespace ApiImpl

/-- `ApiImpl.login` (`ApiImpl.py` line 74): body is `raise
NotImplementedError("required")`. -/
def login (username password : String) : Except PyError Token :=
  Except.error (PyError.notImplemented "required")

/-- `ApiImpl.get_vehicles` (`ApiImpl.py` line 78): raises
`NotImplementedError("required")`; the caller-owned token is untouched. -/
def get_vehicles (token : Token) : Token × Except PyError (List Vehicle) :=
  (token, Except.error (PyError.notImplemented "required"))

/-- `ApiImpl.refresh_vehicles` (`ApiImpl.py` line 82): body is
`return vehicles`. -/
def refresh_vehicles (token : Token) (vehicles : List Vehicle) :
    Token × Except PyError (List Vehicle) :=
  (token, Except.ok vehicles)

/-- `ApiImpl.update_vehicle_with_cached_state` (`ApiImpl.py` line 87): raises
`NotImplementedError("required")`. -/
def update_vehicle_with_cached_state (token : Token) (vehicle : Vehicle) :
    Token × Vehicle × Except PyError Unit :=
  (token, vehicle, Except.error (PyError.notImplemented "required"))

/-- `ApiImpl.check_action_status` (`ApiImpl.py` line 91): body is
`return None`, for every value of `synchronous` and `timeout`. -/
def check_action_status (token : Token) (vehicle : Vehicle)
    (action_id : String) (synchronous : Bool) (timeout : Int) :
    Token × Vehicle × Except PyError (Option OrderStatus) :=
  (token, vehicle, Except.ok none)

/-- `ApiImpl.force_refresh_vehicle_state` (`ApiImpl.py` line 104): raises
`NotImplementedError("required")`. -/
def force_refresh_vehicle_state (token : Token) (vehicle : Vehicle) :
    Token × Vehicle × Except PyError Unit :=
  (token, vehicle, Except.error (PyError.notImplemented "required"))

/-- `ApiImpl.update_geocoded_location` (`ApiImpl.py` lines 108-141).
The guard mirrors `if vehicle.location_latitude and
vehicle.location_longitude:` (Python truthiness: `None` and `0` are falsy).
`requests.get(url)` sits outside the `try`, so a network error propagates;
only `JSONDecodeError` from `Response.json()` is caught, setting
`vehicle.geocode = None`.  On a decoded body the geocode pair is built with
`get_child_value`.  The returned list records the URLs actually requested. -/
def update_geocoded_location (net : String → HttpOutcome) (token : Token)
    (vehicle : Vehicle) (use_email : Bool) :
    Token × Vehicle × List String × Except PyError Unit :=
  match vehicle.location_latitude, vehicle.location_longitude with
  | some lat, some lon =>
    if ¬lat = 0 ∧ ¬lon = 0 then
      let url := geocode_url token lat lon use_email
      match net url with
      | HttpOutcome.raise msg =>
        (token, vehicle, [url], Except.error (PyError.requestException msg))
      | HttpOutcome.success none =>
        (token, { vehicle with geocode := none }, [url], Except.ok ())
      | HttpOutcome.success (some j) =>
        (token,
         { vehicle with
            geocode := some (get_child_value j "display_name",
                             get_child_value j "address") },
         [url], Except.ok ())
    else
      (token, vehicle, [], Except.ok ())
  | _, _ => (token, vehicle, [], Except.ok ())

/-- `ApiImpl.lock_action` (`ApiImpl.py` line 143): raises
`NotImplementedError("required")`. -/
def lock_action (token : Token) (vehicle : Vehicle)
    (action : VEHICLE_LOCK_ACTION) : Token × Vehicle × Except PyError String :=
  (token, vehicle, Except.error (PyError.notImplemented "required"))

/-- `ApiImpl.start_climate` (`ApiImpl.py` line 149): raises
`NotImplementedError("required")`. -/
def start_climate (token : Token) (vehicle : Vehicle)
    (options : ClimateRequestOptions) :
    Token × Vehicle × Except PyError String :=
  (token, vehicle, Except.error (PyError.notImplemented "required"))

/-- `ApiImpl.stop_climate` (`ApiImpl.py` line 155): raises
`NotImplementedError("required")`. -/
def stop_climate (token : Token) (vehicle : Vehicle) :
    Token × Vehicle × Except PyError String :=
  (token, vehicle, Except.error (PyError.notImplemented "required"))

/-- `ApiImpl.start_charge` (`ApiImpl.py` line 159): raises
`NotImplementedError("required")`. -/
def start_charge (token : Token) (vehicle : Vehicle) :
    Token × Vehicle × Except PyError String :=
  (token, vehicle, Except.error (PyError.notImplemented "required"))

/-- `ApiImpl.stop_charge` (`ApiImpl.py` line 163): raises
`NotImplementedError("required")`. -/
def stop_charge (token : Token) (vehicle : Vehicle) :
    Token × Vehicle × Except PyError String :=
  (token, vehicle, Except.error (PyError.notImplemented "required"))

/-- `ApiImpl.set_charge_limits` (`ApiImpl.py` line 167): raises
`NotImplementedError("required")`. -/
def set_charge_limits (token : Token) (vehicle : Vehicle) (ac dc : Int) :
    Token × Vehicle × Except PyError String :=
  (token, vehicle, Except.error (PyError.notImplemented "required"))

/-- `ApiImpl.set_charging_current` (`ApiImpl.py` line 173): body is
`return None`. -/
def set_charging_current (token : Token) (vehicle : Vehicle) (level : Int) :
    Token × Vehicle × Except PyError (Option String) :=
  (token, vehicle, Except.ok none)

/-- `ApiImpl.set_windows_state` (`ApiImpl.py` line 183): body is
`return None`. -/
def set_windows_state (token : Token) (vehicle : Vehicle)
    (options : WindowRequestOptions) :
    Token × Vehicle × Except PyError (Option String) :=
  (token, vehicle, Except.ok none)

/-- `ApiImpl.charge_port_action` (`ApiImpl.py` line 192): body is
`return None`. -/
def charge_port_action (token : Token) (vehicle : Vehicle)
    (action : CHARGE_PORT_ACTION) :
    Token × Vehicle × Except PyError (Option String) :=
  (token, vehicle, Except.ok none)

/-- `ApiImpl.update_month_trip_info` (`ApiImpl.py` line 201): body is
`return None`; in particular it does not write `vehicle.month_trip_info`. -/
def update_month_trip_info (token : Token) (vehicle : Vehicle)
    (yyyymm_string : String) :
    Token × Vehicle × Except PyError (Option Unit) :=
  (token, vehicle, Except.ok none)

/-- `ApiImpl.update_day_trip_info` (`ApiImpl.py` line 214): body is
`return None`; in particular it does not write `vehicle.day_trip_info`. -/
def update_day_trip_info (token : Token) (vehicle : Vehicle)
    (yyyymmdd_string : String) :
    Token × Vehicle × Except PyError (Option Unit) :=
  (token, vehicle, Except.ok none)

/-- `ApiImpl.schedule_charging_and_climate` (`ApiImpl.py` line 227): body is
`return None`. -/
def schedule_charging_and_climate (token : Token) (vehicle : Vehicle)
    (options : ScheduleChargingClimateRequestOptions) :
    Token × Vehicle × Except PyError (Option String) :=
  (token, vehicle, Except.ok none)

/-- `ApiImpl.start_hazard_lights` (`ApiImpl.py` line 239): body is
`return None`. -/
def start_hazard_lights (token : Token) (vehicle : Vehicle) :
    Token × Vehicle × Except PyError (Option String) :=
  (token, vehicle, Except.ok none)

/-- `ApiImpl.start_hazard_lights_and_horn` (`ApiImpl.py` line 246): body is
`return None`. -/
def start_hazard_lights_and_horn (token : Token) (vehicle : Vehicle) :
    Token × Vehicle × Except PyError (Option String) :=
  (token, vehicle, Except.ok none)

/-- `ApiImpl.valet_mode_action` (`ApiImpl.py` line 255): body is
`return None`. -/
def valet_mode_action (token : Token) (vehicle : Vehicle)
    (action : VALET_MODE_ACTION) :
    Token × Vehicle × Except PyError (Option String) :=
  (token, vehicle, Except.ok none)

end ApiImpl

/-- Concrete token used by the closed witness runs. -/
def tok0 : Token :=
  { username := "user at example.org", password := "pw", access_token := "atk" }

/-- Concrete vehicle with both coordinates set and truthy. -/
def veh0 : Vehicle :=
  { id := "V1", name := "Ioniq", location_latitude := some 57,
    location_longitude := some 10, geocode := none,
    month_trip_info := none, day_trip_info := none }

/-- Like `veh0` but with a previously populated geocode, so that leaving the
geocode untouched is distinguishable from clearing it. -/
def veh1 : Vehicle :=
  { veh0 with geocode := some (some (Json.str "old"), none) }

/-- `veh0` with an unset latitude. -/
def vehNoLat : Vehicle :=
  { veh0 with location_latitude := none }

/-- `veh1` with a zero (set but falsy) latitude. -/
def vehZeroLat : Vehicle :=
  { veh1 with location_latitude := some 0 }

/-- Network model where every GET raises a connection error. -/
def netBoom : String → HttpOutcome :=
  fun _ => HttpOutcome.raise "ConnectionError"

/-- Network model where every GET responds with an undecodable body. -/
def netBadJson : String → HttpOutcome :=
  fun _ => HttpOutcome.success none

/-- The spec's example geocoding response. -/
def springfield : Json :=
  Json.obj [("display_name", Json.str "123 Main St"),
            ("address", Json.obj [("city", Json.str "Springfield")])]

/-- Network model where every GET decodes to `springfield`. -/
def netSpringfield : String → HttpOutcome :=
  fun _ => HttpOutcome.success (some springfield)

/-- `hay` contains `needle` as a contiguous substring. -/
def strContains (hay needle : String) : Prop :=
  ∃ s t, hay.data = s ++ needle.data ++ t

/-- Adjacent-character pair that cannot start the text `&email=`. -/
def SafePair (x y : Char) : Prop := ¬(x = '&' ∧ y = 'e')

instance : DecidableRel SafePair := fun x y =>
  decidable_of_iff (¬(x = '&' ∧ y = 'e')) Iff.rfl

/-- Executable check that no adjacent pair of characters spells `&e`. -/
def safeChainB : List Char → Bool
  | [] => true
  | [_] => true
  | x :: y :: rest => !(x == '&' && y == 'e') && safeChainB (y :: rest)

/-!  General facts about `update_geocoded_location`, shared by the claims. -/

/-- With truthy coordinates, the run of `update_geocoded_location` is fully
determined by the network's answer on the built URL. -/
theorem update_geocoded_run (net : String → HttpOutcome) (token : Token)
    (vehicle : Vehicle) (use_email : Bool) (lat lon : Int)
    (hlat : vehicle.location_latitude = some lat)
    (hlon : vehicle.location_longitude = some lon)
    (hlat0 : ¬lat = 0) (hlon0 : ¬lon = 0) :
    ApiImpl.update_geocoded_location net token vehicle use_email =
      (token,
       match net (geocode_url token lat lon use_email) with
       | HttpOutcome.raise msg =>
         (vehicle, [geocode_url token lat lon use_email],
          Except.error (PyError.requestException msg))
       | HttpOutcome.success none =>
         ({ vehicle with geocode := none },
          [geocode_url token lat lon use_email], Except.ok ())
       | HttpOutcome.success (some j) =>
         ({ vehicle with
             geocode := some (get_child_value j "display_name",
                              get_child_value j "address") },
          [geocode_url token lat lon use_email], Except.ok ())) := by
  unfold ApiImpl.update_geocoded_location
  simp only [hlat, hlon]
  rw [if_pos ⟨hlat0, hlon0⟩]
  cases hn : net (geocode_url token lat lon use_email) with
  | raise msg => simp only [hn]
  | success body => cases body <;> simp only [hn]

/-- The first component of `update_geocoded_location` is always the input
token. -/
theorem update_geocoded_token_fst (net : String → HttpOutcome) (token : Token)
    (vehicle : Vehicle) (use_email : Bool) :
    (ApiImpl.update_geocoded_location net token vehicle use_email).1 = token := by
  unfold ApiImpl.update_geocoded_location
  split
  · split
    · dsimp only
      split <;> rfl
    · rfl
  · rfl

/-- Claim C3: on the base contract, every mandatory operation — login,
get_vehicles, update_vehicle_with_cached_state, force_refresh_vehicle_state,
lock_action, start_climate, stop_climate, start_charge, stop_charge,
set_charge_limits — raises a not-implemented failure, for all inputs. -/
theorem C3_mandatory_raise_not_implemented :
    (∀ u p, ApiImpl.login u p =
      Except.error (PyError.notImplemented "required"))
    ∧ (∀ t, ApiImpl.get_vehicles t =
      (t, Except.error (PyError.notImplemented "required")))
    ∧ (∀ t v, ApiImpl.update_vehicle_with_cached_state t v =
      (t, v, Except.error (PyError.notImplemented "required")))
    ∧ (∀ t v, ApiImpl.force_refresh_vehicle_state t v =
      (t, v, Except.error (PyError.notImplemented "required")))
    ∧ (∀ t v a, ApiImpl.lock_action t v a =
      (t, v, Except.error (PyError.notImplemented "required")))
    ∧ (∀ t v o, ApiImpl.start_climate t v o =
      (t, v, Except.error (PyError.notImplemented "required")))
    ∧ (∀ t v, ApiImpl.stop_climate t v =
      (t, v, Except.error (PyError.notImplemented "required")))
    ∧ (∀ t v, ApiImpl.start_charge t v =
      (t, v, Except.error (PyError.notImplemented "required")))
    ∧ (∀ t v, ApiImpl.stop_charge t v =
      (t, v, Except.error (PyError.notImplemented "required")))
    ∧ (∀ t v ac dc, ApiImpl.set_charge_limits t v ac dc =
      (t, v, Except.error (PyError.notImplemented "required"))) := by
  refine ⟨?_, ?_, ?_, ?_, ?_, ?_, ?_, ?_, ?_, ?_⟩ <;> intros <;> rfl

/-- Claim C4: on the base contract, every optional operation —
check_action_status (for every synchronous/timeout), set_charging_current,
set_windows_state, charge_port_action, update_month_trip_info,
update_day_trip_info, schedule_charging_and_climate, start_hazard_lights,
start_hazard_lights_and_horn, valet_mode_action — returns an absent (None)
result rather than raising. -/
theorem C4_optional_return_absent :
    (∀ t v a s ti, (ApiImpl.check_action_status t v a s ti).2.2 =
      Except.ok none)
    ∧ (∀ t v l, (ApiImpl.set_charging_current t v l).2.2 = Except.ok none)
    ∧ (∀ t v o, (ApiImpl.set_windows_state t v o).2.2 = Except.ok none)
    ∧ (∀ t v a, (ApiImpl.charge_port_action t v a).2.2 = Except.ok none)
    ∧ (∀ t v m, (ApiImpl.update_month_trip_info t v m).2.2 = Except.ok none)
    ∧ (∀ t v d, (ApiImpl.update_day_trip_info t v d).2.2 = Except.ok none)
    ∧ (∀ t v o, (ApiImpl.schedule_charging_and_climate t v o).2.2 =
      Except.ok none)
    ∧ (∀ t v, (ApiImpl.start_hazard_lights t v).2.2 = Except.ok none)
    ∧ (∀ t v, (ApiImpl.start_hazard_lights_and_horn t v).2.2 =
      Except.ok none)
    ∧ (∀ t v a, (ApiImpl.valet_mode_action t v a).2.2 = Except.ok none) := by
  refine ⟨?_, ?_, ?_, ?_, ?_, ?_, ?_, ?_, ?_, ?_⟩ <;> intros <;> rfl

/-- Claim C5: on the base contract, refresh_vehicles is the identity on its
vehicle-list argument: for every token and every list of vehicles (including
the empty list) the input list is returned unchanged. -/
theorem C5_refresh_vehicles_identity (token : Token)
    (vehicles : List Vehicle) :
    ApiImpl.refresh_vehicles token vehicles = (token, Except.ok vehicles) :=
  rfl

/-- Claim C6: for every vehicle whose latitude or longitude is None,
update_geocoded_location is a no-op: the vehicle (in particular its geocode)
is untouched, no network request is issued, and no exception is raised. -/
theorem C6_geocode_noop_when_coordinate_missing (net : String → HttpOutcome)
    (token : Token) (vehicle : Vehicle) (use_email : Bool)
    (h : vehicle.location_latitude = none ∨
         vehicle.location_longitude = none) :
    ApiImpl.update_geocoded_location net token vehicle use_email =
      (token, vehicle, [], Except.ok ()) := by
  rcases h with h | h
  · cases hlon : vehicle.location_longitude <;>
      simp [ApiImpl.update_geocoded_location, h, hlon]
  · cases hlat : vehicle.location_latitude <;>
      simp [ApiImpl.update_geocoded_location, h, hlat]

/-- Witness for C6: a concrete vehicle with latitude None, against a network
that would raise were it ever contacted. -/
theorem C6_geocode_noop_when_coordinate_missing_witness :
    ApiImpl.update_geocoded_location netBoom tok0 vehNoLat false =
      (tok0, vehNoLat, [], Except.ok ()) :=
  C6_geocode_noop_when_coordinate_missing netBoom tok0 vehNoLat false
    (Or.inl rfl)

/-- Claim C9: a coordinate that is set but falsy — equal to 0 — is treated by
update_geocoded_location exactly like an unset coordinate, because the guard
tests Python truthiness rather than presence: no network request is issued
and the vehicle, in particular its geocode, is untouched. -/
theorem C9_zero_coordinate_treated_as_unset (net : String → HttpOutcome)
    (token : Token) (vehicle : Vehicle) (use_email : Bool)
    (h : vehicle.location_latitude = some 0 ∨
         vehicle.location_longitude = some 0) :
    ApiImpl.update_geocoded_location net token vehicle use_email =
      (token, vehicle, [], Except.ok ()) := by
  rcases h with h | h
  · cases hlon : vehicle.location_longitude <;>
      simp [ApiImpl.update_geocoded_location, h, hlon]
  · cases hlat : vehicle.location_latitude <;>
      simp [ApiImpl.update_geocoded_location, h, hlat]

/-- Witness for C9: a concrete vehicle on the equator (latitude 0, set), with
a previously populated geocode, against a network that would raise were it
ever contacted: the run leaves everything unchanged. -/
theorem C9_zero_coordinate_treated_as_unset_witness :
    ApiImpl.update_geocoded_location netBoom tok0 vehZeroLat true =
      (tok0, vehZeroLat, [], Except.ok ()) :=
  C9_zero_coordinate_treated_as_unset netBoom tok0 vehZeroLat true
    (Or.inl rfl)

/-- Counterexample to claim C1 as stated: with both coordinates set and
truthy, when the HTTP GET itself raises a network error (here every request
raises "ConnectionError"), the exception DOES propagate to the caller and
`vehicle.geocode` is NOT set to absent — `requests.get` sits outside the
`try`, which only catches `JSONDecodeError` from `Response.json()`. -/
theorem C1_geocode_network_error_counterexample :
    ¬((ApiImpl.update_geocoded_location netBoom tok0 veh1 false).2.2.2 =
        Except.ok ()
      ∧ (ApiImpl.update_geocoded_location netBoom tok0 veh1 false).2.1.geocode
        = none) := by
  intro h
  exact Except.noConfusion h.1

/-- Claim C1 (amended): for truthy coordinates, if the response body cannot
be decoded as JSON then update_geocoded_location sets vehicle.geocode to
absent, no exception propagates, and every other vehicle field is unchanged;
but if the HTTP GET itself raises a network error, that exception propagates
to the caller and the vehicle (geocode included) is unchanged. -/
theorem C1_geocode_failure_amended (net : String → HttpOutcome)
    (token : Token) (vehicle : Vehicle) (use_email : Bool) (lat lon : Int)
    (hlat : vehicle.location_latitude = some lat)
    (hlon : vehicle.location_longitude = some lon)
    (hlat0 : ¬lat = 0) (hlon0 : ¬lon = 0) :
    (net (geocode_url token lat lon use_email) = HttpOutcome.success none →
      ApiImpl.update_geocoded_location net token vehicle use_email =
        (token, { vehicle with geocode := none },
         [geocode_url token lat lon use_email], Except.ok ()))
    ∧ (∀ msg, net (geocode_url token lat lon use_email) =
        HttpOutcome.raise msg →
      ApiImpl.update_geocoded_location net token vehicle use_email =
        (token, vehicle, [geocode_url token lat lon use_email],
         Except.error (PyError.requestException msg))) := by
  constructor
  · intro hnet
    rw [update_geocoded_run net token vehicle use_email lat lon hlat hlon
      hlat0 hlon0, hnet]
  · intro msg hnet
    rw [update_geocoded_run net token vehicle use_email lat lon hlat hlon
      hlat0 hlon0, hnet]

/-- Witness for the amended C1: a concrete run against a network whose
response body is undecodable; the geocode (previously populated) is cleared
and nothing else changes. -/
theorem C1_geocode_failure_amended_witness :
    ApiImpl.update_geocoded_location netBadJson tok0 veh1 false =
      (tok0, { veh1 with geocode := none },
       [geocode_url tok0 57 10 false], Except.ok ()) :=
  (C1_geocode_failure_amended netBadJson tok0 veh1 false 57 10 rfl rfl
    (by decide) (by decide)).1 rfl

/-- Claim C2: for truthy coordinates, when the GET succeeds and the body
decodes to `j`, update_geocoded_location sets vehicle.geocode to the pair of
the tolerant lookups of "display_name" and "address" in `j`; and a missing
"display_name" or "address" field yields an absent pair component rather
than an error. -/
theorem C2_geocode_success (net : String → HttpOutcome) (token : Token)
    (vehicle : Vehicle) (use_email : Bool) (lat lon : Int) (j : Json)
    (hlat : vehicle.location_latitude = some lat)
    (hlon : vehicle.location_longitude = some lon)
    (hlat0 : ¬lat = 0) (hlon0 : ¬lon = 0)
    (hnet : net (geocode_url token lat lon use_email) =
      HttpOutcome.success (some j)) :
    ApiImpl.update_geocoded_location net token vehicle use_email =
      (token,
       { vehicle with
          geocode := some (get_child_value j "display_name",
                           get_child_value j "address") },
       [geocode_url token lat lon use_email], Except.ok ())
    ∧ (∀ fields, (∀ p ∈ fields, ¬p.1 = "display_name") →
        get_child_value (Json.obj fields) "display_name" = none)
    ∧ (∀ fields, (∀ p ∈ fields, ¬p.1 = "address") →
        get_child_value (Json.obj fields) "address" = none) := by
  refine ⟨?_, ?_, ?_⟩
  · rw [update_geocoded_run net token vehicle use_email lat lon hlat hlon
      hlat0 hlon0, hnet]
  · intro fields hf
    simp only [get_child_value, Option.map_eq_none', List.find?_eq_none,
      beq_iff_eq]
    exact fun p hp => hf p hp
  · intro fields hf
    simp only [get_child_value, Option.map_eq_none', List.find?_eq_none,
      beq_iff_eq]
    exact fun p hp => hf p hp

/-- Witness for C2: the spec's Springfield example — the response
`{"display_name": "123 Main St", "address": {"city": "Springfield"}}` makes
the geocode equal `(some "123 Main St", some {"city": "Springfield"})`. -/
theorem C2_geocode_success_witness :
    ApiImpl.update_geocoded_location netSpringfield tok0 veh0 false =
      (tok0,
       { veh0 with
          geocode := some (some (Json.str "123 Main St"),
                           some (Json.obj [("city",
                             Json.str "Springfield")])) },
       [geocode_url tok0 57 10 false], Except.ok ()) :=
  (C2_geocode_success netSpringfield tok0 veh0 false 57 10 springfield rfl
    rfl (by decide) (by decide) rfl).1

/-- Claim C8: no operation of the base contract ever mutates the token
passed to it — for every operation and all inputs (any network behavior
included for the geocoding helper), the caller's token is returned exactly
as it came in, also on the raising (not-implemented / network-error)
paths. -/
theorem C8_token_never_mutated :
    (∀ t, (ApiImpl.get_vehicles t).1 = t)
    ∧ (∀ t vs, (ApiImpl.refresh_vehicles t vs).1 = t)
    ∧ (∀ t v, (ApiImpl.update_vehicle_with_cached_state t v).1 = t)
    ∧ (∀ t v a s ti, (ApiImpl.check_action_status t v a s ti).1 = t)
    ∧ (∀ t v, (ApiImpl.force_refresh_vehicle_state t v).1 = t)
    ∧ (∀ net t v u, (ApiImpl.update_geocoded_location net t v u).1 = t)
    ∧ (∀ t v a, (ApiImpl.lock_action t v a).1 = t)
    ∧ (∀ t v o, (ApiImpl.start_climate t v o).1 = t)
    ∧ (∀ t v, (ApiImpl.stop_climate t v).1 = t)
    ∧ (∀ t v, (ApiImpl.start_charge t v).1 = t)
    ∧ (∀ t v, (ApiImpl.stop_charge t v).1 = t)
    ∧ (∀ t v ac dc, (ApiImpl.set_charge_limits t v ac dc).1 = t)
    ∧ (∀ t v l, (ApiImpl.set_charging_current t v l).1 = t)
    ∧ (∀ t v o, (ApiImpl.set_windows_state t v o).1 = t)
    ∧ (∀ t v a, (ApiImpl.charge_port_action t v a).1 = t)
    ∧ (∀ t v m, (ApiImpl.update_month_trip_info t v m).1 = t)
    ∧ (∀ t v d, (ApiImpl.update_day_trip_info t v d).1 = t)
    ∧ (∀ t v o, (ApiImpl.schedule_charging_and_climate t v o).1 = t)
    ∧ (∀ t v, (ApiImpl.start_hazard_lights t v).1 = t)
    ∧ (∀ t v, (ApiImpl.start_hazard_lights_and_horn t v).1 = t)
    ∧ (∀ t v a, (ApiImpl.valet_mode_action t v a).1 = t) := by
  refine ⟨?_, ?_, ?_, ?_, ?_, ?_, ?_, ?_, ?_, ?_, ?_, ?_, ?_, ?_, ?_, ?_,
    ?_, ?_, ?_, ?_, ?_⟩ <;> intros <;>
    first
    | rfl
    | apply update_geocoded_token_fst

/-- Claim C10: every default optional operation of the base contract is
side-effect free: for all inputs it returns the caller's token and vehicle
exactly as they came in — in particular update_month_trip_info and
update_day_trip_info do not write vehicle.month_trip_info or
vehicle.day_trip_info. -/
theorem C10_optional_ops_side_effect_free :
    (∀ t v a s ti, (ApiImpl.check_action_status t v a s ti).1 = t
      ∧ (ApiImpl.check_action_status t v a s ti).2.1 = v)
    ∧ (∀ t v l, (ApiImpl.set_charging_current t v l).1 = t
      ∧ (ApiImpl.set_charging_current t v l).2.1 = v)
    ∧ (∀ t v o, (ApiImpl.set_windows_state t v o).1 = t
      ∧ (ApiImpl.set_windows_state t v o).2.1 = v)
    ∧ (∀ t v a, (ApiImpl.charge_port_action t v a).1 = t
      ∧ (ApiImpl.charge_port_action t v a).2.1 = v)
    ∧ (∀ t v m, (ApiImpl.update_month_trip_info t v m).1 = t
      ∧ (ApiImpl.update_month_trip_info t v m).2.1 = v
      ∧ (ApiImpl.update_month_trip_info t v m).2.1.month_trip_info =
        v.month_trip_info)
    ∧ (∀ t v d, (ApiImpl.update_day_trip_info t v d).1 = t
      ∧ (ApiImpl.update_day_trip_info t v d).2.1 = v
      ∧ (ApiImpl.update_day_trip_info t v d).2.1.day_trip_info =
        v.day_trip_info)
    ∧ (∀ t v o, (ApiImpl.schedule_charging_and_climate t v o).1 = t
      ∧ (ApiImpl.schedule_charging_and_climate t v o).2.1 = v)
    ∧ (∀ t v, (ApiImpl.start_hazard_lights t v).1 = t
      ∧ (ApiImpl.start_hazard_lights t v).2.1 = v)
    ∧ (∀ t v, (ApiImpl.start_hazard_lights_and_horn t v).1 = t
      ∧ (ApiImpl.start_hazard_lights_and_horn t v).2.1 = v)
    ∧ (∀ t v a, (ApiImpl.valet_mode_action t v a).1 = t
      ∧ (ApiImpl.valet_mode_action t v a).2.1 = v) := by
  refine ⟨?_, ?_, ?_, ?_, ?_, ?_, ?_, ?_, ?_, ?_⟩ <;> intros <;>
    first
    | exact ⟨rfl, rfl, rfl⟩
    | exact ⟨rfl, rfl⟩

/-!  Substring toolkit for claim C7. -/

/-- A substring of `a` is a substring of `a ++ b`. -/
theorem strContains_appendL {a n : String} (b : String)
    (h : strContains a n) : strContains (a ++ b) n := by
  obtain ⟨s, t, hs⟩ := h
  exact ⟨s, t ++ b.data, by simp [hs, List.append_assoc]⟩

/-- A substring of `b` is a substring of `a ++ b`. -/
theorem strContains_appendR (a : String) {b n : String}
    (h : strContains b n) : strContains (a ++ b) n := by
  obtain ⟨s, t, hs⟩ := h
  exact ⟨a.data ++ s, t, by simp [hs, List.append_assoc]⟩

/-- `n` is a substring of `a ++ n`. -/
theorem strContains_suffix (a n : String) : strContains (a ++ n) n :=
  ⟨a.data, [], by simp⟩

/-- Every character that `Nat.toDigitsCore 10` can prepend is a decimal
digit. -/
theorem digitChar_isDigit {m : Nat} (h : m < 10) :
    (Nat.digitChar m).isDigit = true := by
  interval_cases m <;> decide

/-- All characters produced by `Nat.toDigitsCore 10` over a digit
accumulator are digits. -/
theorem toDigitsCore_isDigit (fuel : Nat) :
    ∀ (n : Nat) (ds : List Char), (∀ c ∈ ds, c.isDigit = true) →
      ∀ c ∈ Nat.toDigitsCore 10 fuel n ds, c.isDigit = true := by
  induction fuel with
  | zero =>
    intro n ds hds c hc
    simp only [Nat.toDigitsCore] at hc
    exact hds c hc
  | succ fuel ih =>
    intro n ds hds c hc
    simp only [Nat.toDigitsCore] at hc
    have hcons : ∀ x ∈ Nat.digitChar (n % 10) :: ds, x.isDigit = true := by
      intro x hx
      rcases List.mem_cons.mp hx with rfl | hx
      · exact digitChar_isDigit (Nat.mod_lt n (by decide))
      · exact hds x hx
    split at hc
    · exact hcons c hc
    · exact ih (n / 10) (Nat.digitChar (n % 10) :: ds) hcons c hc

/-- Every character of `Int.repr` (Python `str` on the coordinate) is a
decimal digit or the minus sign. -/
theorem int_repr_chars (i : Int) :
    ∀ c ∈ (Int.repr i).data, c.isDigit = true ∨ c = '-' := by
  have hdata : ∀ k : Nat, (Nat.repr k).data =
      Nat.toDigitsCore 10 (k + 1) k [] := fun _ => rfl
  cases i with
  | ofNat m =>
    intro c hc
    rw [show Int.repr (Int.ofNat m) = Nat.repr m from rfl, hdata m] at hc
    exact Or.inl (toDigitsCore_isDigit (m + 1) m [] (by simp) c hc)
  | negSucc m =>
    intro c hc
    rw [show Int.repr (Int.negSucc m) = "-" ++ Nat.repr (m + 1) from rfl,
      String.data_append, hdata (m + 1)] at hc
    rcases List.mem_append.mp hc with h | h
    · right
      simpa using h
    · exact Or.inl (toDigitsCore_isDigit (m + 2) (m + 1) [] (by simp) c h)

/-- No character of `Int.repr` is an ampersand. -/
theorem int_repr_no_amp (i : Int) : ∀ c ∈ (Int.repr i).data, ¬c = '&' := by
  intro c hc hC
  rcases int_repr_chars i c hc with h | h
  · rw [hC] at h
    exact absurd h (by decide)
  · rw [hC] at h
    exact absurd h (by decide)

/-- A pair whose left member is not an ampersand is safe. -/
theorem safePair_of_left {x y : Char} (h : ¬x = '&') : SafePair x y :=
  fun hp => h hp.1

/-- A list with no ampersand at all is `SafePair`-chained. -/
theorem chain_safe_of_no_amp {l : List Char} (h : ∀ c ∈ l, ¬c = '&') :
    List.Chain' SafePair l := by
  induction l with
  | nil => exact List.chain'_nil
  | cons x xs ih =>
    rw [List.chain'_cons']
    exact ⟨fun y _ => safePair_of_left (h x (List.mem_cons_self x xs)),
           ih fun c hc => h c (List.mem_cons_of_mem x hc)⟩

/-- Boundary fact for `List.chain'_append` when the left block ends in a
known non-ampersand character. -/
theorem bound_of_getLast_eq {l₁ l₂ : List Char} (c : Char)
    (hl : l₁.getLast? = some c) (hc : ¬c = '&') :
    ∀ x ∈ l₁.getLast?, ∀ y ∈ l₂.head?, SafePair x y := by
  intro x hx y _
  rw [hl, Option.mem_def, Option.some_inj] at hx
  subst hx
  exact safePair_of_left hc

/-- Boundary fact for `List.chain'_append` when the left block contains no
ampersand at all. -/
theorem bound_of_mem_not_amp {l₁ l₂ : List Char}
    (h : ∀ c ∈ l₁, ¬c = '&') :
    ∀ x ∈ l₁.getLast?, ∀ y ∈ l₂.head?, SafePair x y :=
  fun x hx y _ => safePair_of_left (h x (List.mem_of_mem_getLast? hx))

/-- Soundness of the executable check `safeChainB`. -/
theorem chain_safe_of_safeChainB :
    ∀ (l : List Char), safeChainB l = true → List.Chain' SafePair l := by
  intro l
  induction l with
  | nil => exact fun _ => List.chain'_nil
  | cons x xs ih =>
    intro h
    cases xs with
    | nil => simp
    | cons y rest =>
      rw [List.chain'_cons]
      simp only [safeChainB, Bool.and_eq_true] at h
      refine ⟨fun hp => ?_, ih h.2⟩
      obtain ⟨rfl, rfl⟩ := hp
      exact absurd h.1 (by decide)

/-- Without `use_email`, no ampersand of the built URL is followed by an
`e`: the only ampersands come from `&lon=`, `&format=`, `&addressdetails=`
and `&zoom=`. -/
theorem chain_safe_geocode_url_no_email (token : Token) (lat lon : Int) :
    List.Chain' SafePair (geocode_url token lat lon false).data := by
  have hurl : (geocode_url token lat lon false).data =
      "https://nominatim.openstreetmap.org/reverse?lat=".data ++
      ((Int.repr lat).data ++ ("&lon=".data ++
      ((Int.repr lon).data ++
        "&format=json&addressdetails=1&zoom=18".data))) := by
    simp [geocode_url, List.append_assoc]
  rw [hurl]
  refine List.chain'_append.mpr ⟨?_, ?_, ?_⟩
  · exact chain_safe_of_no_amp (by decide)
  · refine List.chain'_append.mpr ⟨?_, ?_, ?_⟩
    · exact chain_safe_of_no_amp (int_repr_no_amp lat)
    · refine List.chain'_append.mpr ⟨?_, ?_, ?_⟩
      · exact chain_safe_of_safeChainB _ (by decide)
      · refine List.chain'_append.mpr ⟨?_, ?_, ?_⟩
        · exact chain_safe_of_no_amp (int_repr_no_amp lon)
        · exact chain_safe_of_safeChainB _ (by decide)
        · exact bound_of_mem_not_amp (int_repr_no_amp lon)
      · exact bound_of_getLast_eq '=' (by decide) (by decide)
    · exact bound_of_mem_not_amp (int_repr_no_amp lat)
  · exact bound_of_getLast_eq '=' (by decide) (by decide)

/-- A `SafePair`-chained string cannot contain `&email=<anything>`. -/
theorem not_contains_email_of_chain {u hay : String}
    (hch : List.Chain' SafePair hay.data) :
    ¬strContains hay ("&email=" ++ u) := by
  rintro ⟨s, t, heq⟩
  rw [heq] at hch
  simp only [String.data_append, List.append_assoc, List.cons_append,
    show "&email=".data = '&' :: 'e' :: "mail=".data from rfl] at hch
  obtain ⟨-, h2, -⟩ := List.chain'_append.mp hch
  rw [List.chain'_cons] at h2
  exact h2.1 ⟨rfl, rfl⟩

/-- Canonical right-associated decomposition of the built URL's character
data, splitting every query parameter at its own `&`. -/
theorem geocode_url_data (token : Token) (lat lon : Int) (use_email : Bool) :
    (geocode_url token lat lon use_email).data =
      "https://nominatim.openstreetmap.org/reverse?".data ++ ("lat=".data ++
      ((Int.repr lat).data ++ ("&".data ++ ("lon=".data ++
      ((Int.repr lon).data ++ ("&".data ++ ("format=json".data ++
      ("&".data ++ ("addressdetails=1".data ++ ("&".data ++
      ("zoom=18".data ++
      (if use_email = true then "&email=" ++ token.username
       else "").data))))))))))) := by
  simp only [geocode_url, String.data_append, List.append_assoc,
    show ("https://nominatim.openstreetmap.org/reverse?lat=").data =
      "https://nominatim.openstreetmap.org/reverse?".data ++ "lat=".data
      from rfl,
    show ("&lon=").data = "&".data ++ "lon=".data from rfl,
    show ("&format=json&addressdetails=1&zoom=18").data =
      "&".data ++ ("format=json".data ++ ("&".data ++
      ("addressdetails=1".data ++ ("&".data ++ "zoom=18".data))))
      from rfl]
  simp

/-- Claim C7: for every vehicle with both coordinates set (and truthy), the
reverse-geocoding request URL built by update_geocoded_location contains the
query parameters lat=<latitude>, lon=<longitude>, format=json,
addressdetails=1 and zoom=18, and it contains &email=<token.username> if and
only if use_email is true. -/
theorem C7_geocode_url_query_params (net : String → HttpOutcome)
    (token : Token) (vehicle : Vehicle) (use_email : Bool) (lat lon : Int)
    (hlat : vehicle.location_latitude = some lat)
    (hlon : vehicle.location_longitude = some lon)
    (hlat0 : ¬lat = 0) (hlon0 : ¬lon = 0) :
    (ApiImpl.update_geocoded_location net token vehicle use_email).2.2.1 =
      [geocode_url token lat lon use_email]
    ∧ strContains (geocode_url token lat lon use_email)
        ("lat=" ++ Int.repr lat)
    ∧ strContains (geocode_url token lat lon use_email)
        ("lon=" ++ Int.repr lon)
    ∧ strContains (geocode_url token lat lon use_email) "format=json"
    ∧ strContains (geocode_url token lat lon use_email) "addressdetails=1"
    ∧ strContains (geocode_url token lat lon use_email) "zoom=18"
    ∧ (strContains (geocode_url token lat lon use_email)
        ("&email=" ++ token.username) ↔ use_email = true) := by
  have hrun := update_geocoded_run net token vehicle use_email lat lon hlat
    hlon hlat0 hlon0
  refine ⟨?_, ?_, ?_, ?_, ?_, ?_, ?_⟩
  · rw [hrun]
    cases net (geocode_url token lat lon use_email) with
    | raise msg => rfl
    | success body => cases body <;> rfl
  · refine ⟨"https://nominatim.openstreetmap.org/reverse?".data,
      "&".data ++ ("lon=".data ++ ((Int.repr lon).data ++ ("&".data ++
      ("format=json".data ++ ("&".data ++ ("addressdetails=1".data ++
      ("&".data ++ ("zoom=18".data ++
      (if use_email = true then "&email=" ++ token.username
       else "").data)))))))), ?_⟩
    rw [geocode_url_data]
    simp [List.append_assoc]
  · refine ⟨"https://nominatim.openstreetmap.org/reverse?".data ++
      ("lat=".data ++ ((Int.repr lat).data ++ "&".data)),
      "&".data ++ ("format=json".data ++ ("&".data ++
      ("addressdetails=1".data ++ ("&".data ++ ("zoom=18".data ++
      (if use_email = true then "&email=" ++ token.username
       else "").data))))), ?_⟩
    rw [geocode_url_data]
    simp [List.append_assoc]
  · refine ⟨"https://nominatim.openstreetmap.org/reverse?".data ++
      ("lat=".data ++ ((Int.repr lat).data ++ ("&".data ++ ("lon=".data ++
      ((Int.repr lon).data ++ "&".data))))),
      "&".data ++ ("addressdetails=1".data ++ ("&".data ++
      ("zoom=18".data ++
      (if use_email = true then "&email=" ++ token.username
       else "").data))), ?_⟩
    rw [geocode_url_data]
    simp [List.append_assoc]
  · refine ⟨"https://nominatim.openstreetmap.org/reverse?".data ++
      ("lat=".data ++ ((Int.repr lat).data ++ ("&".data ++ ("lon=".data ++
      ((Int.repr lon).data ++ ("&".data ++ ("format=json".data ++
      "&".data))))))),
      "&".data ++ ("zoom=18".data ++
      (if use_email = true then "&email=" ++ token.username
       else "").data), ?_⟩
    rw [geocode_url_data]
    simp [List.append_assoc]
  · refine ⟨"https://nominatim.openstreetmap.org/reverse?".data ++
      ("lat=".data ++ ((Int.repr lat).data ++ ("&".data ++ ("lon=".data ++
      ((Int.repr lon).data ++ ("&".data ++ ("format=json".data ++
      ("&".data ++ ("addressdetails=1".data ++ "&".data))))))))),
      (if use_email = true then "&email=" ++ token.username
       else "").data, ?_⟩
    rw [geocode_url_data]
    simp [List.append_assoc]
  · cases use_email with
    | true =>
      constructor
      · exact fun _ => rfl
      · intro _
        show strContains
          ("https://nominatim.openstreetmap.org/reverse?lat="
            ++ Int.repr lat ++ "&lon=" ++ Int.repr lon
            ++ "&format=json&addressdetails=1&zoom=18"
            ++ ("&email=" ++ token.username))
          ("&email=" ++ token.username)
        exact strContains_suffix _ _
    | false =>
      constructor
      · intro hcon
        exact absurd hcon
          (not_contains_email_of_chain
            (chain_safe_geocode_url_no_email token lat lon))
      · intro h
        exact absurd h (by decide)

/-- Witness for C7: a concrete run with coordinates (57, 10) and
use_email=true. -/
theorem C7_geocode_url_query_params_witness :
    ((ApiImpl.update_geocoded_location netBadJson tok0 veh0 true).2.2.1 =
      [geocode_url tok0 57 10 true])
    ∧ strContains (geocode_url tok0 57 10 true) ("lat=" ++ Int.repr 57)
    ∧ strContains (geocode_url tok0 57 10 true) ("lon=" ++ Int.repr 10)
    ∧ strContains (geocode_url tok0 57 10 true) "format=json"
    ∧ strContains (geocode_url tok0 57 10 true) "addressdetails=1"
    ∧ strContains (geocode_url tok0 57 10 true) "zoom=18"
    ∧ (strContains (geocode_url tok0 57 10 true)
        ("&email=" ++ tok0.username) ↔ true = true) :=
  C7_geocode_url_query_params netBadJson tok0 veh0 true 57 10 rfl rfl
    (by decide) (by decide)
